import Mathlib

/-!
Shallow embedding of the TDVMS continuous-data client
(source files: tdvms/tdvms.py and download.py).

Stations are records carrying the fields the code reads: identity
(network, code), coordinates, the three device flags and the nine
per-device component flags.  Fallible operations return Except or
Option; the HTTP boundary is modelled as an explicit response value
fed to request_data.
-/

/-- A station record, with exactly the keys the source reads:
network, code, latitude, longitude, the device flags deviceH, deviceL,
deviceN and the component flags deviceHZ .. deviceNN. -/
structure Station where
  network : String
  code : String
  latitude : Int
  longitude : Int
  deviceH : Bool
  deviceL : Bool
  deviceN : Bool
  deviceHZ : Bool
  deviceHE : Bool
  deviceHN : Bool
  deviceLZ : Bool
  deviceLE : Bool
  deviceLN : Bool
  deviceNZ : Bool
  deviceNE : Bool
  deviceNN : Bool
deriving DecidableEq

/-- The three device types of the catalog (H, L, N). -/
inductive DeviceType
  | H
  | L
  | N
deriving DecidableEq

/-- The list `devices = ["deviceH", "deviceL", "deviceN"]` iterated by
expand_hybrid_stations, in source order. -/
def devices : List DeviceType := [DeviceType.H, DeviceType.L, DeviceType.N]

/-- Dictionary access `sta[device]` for a device key. -/
def Station.deviceFlag (sta : Station) : DeviceType → Bool
  | DeviceType.H => sta.deviceH
  | DeviceType.L => sta.deviceL
  | DeviceType.N => sta.deviceN

/-- `sum(int(sta[d]) for d in devices)` from expand_hybrid_stations. -/
def number_of_device_types (sta : Station) : Nat :=
  (if sta.deviceH then 1 else 0) + (if sta.deviceL then 1 else 0)
    + (if sta.deviceN then 1 else 0)

/-- The `no_device_sta` built by expand_hybrid_stations: a copy of the
station with every device flag and every component flag set to False. -/
def clear_device_flags (sta : Station) : Station :=
  { sta with
    deviceH := false, deviceL := false, deviceN := false,
    deviceHZ := false, deviceHE := false, deviceHN := false,
    deviceLZ := false, deviceLE := false, deviceLN := false,
    deviceNZ := false, deviceNE := false, deviceNN := false }

/-- The `new_sta` built by expand_hybrid_stations for one device: the
device flag and its three component flags (Z, E, N) set to True. -/
def set_device (sta : Station) : DeviceType → Station
  | DeviceType.H =>
    { sta with deviceH := true, deviceHZ := true, deviceHE := true, deviceHN := true }
  | DeviceType.L =>
    { sta with deviceL := true, deviceLZ := true, deviceLE := true, deviceLN := true }
  | DeviceType.N =>
    { sta with deviceN := true, deviceNZ := true, deviceNE := true, deviceNN := true }

/-- The per-station body of expand_hybrid_stations: a station with more
than one device type becomes one synthetic station per active device
(in the order H, L, N); otherwise the station passes through. -/
def expand_one (sta : Station) : List Station :=
  if 1 < number_of_device_types sta then
    (devices.filter (fun d => sta.deviceFlag d)).map (set_device (clear_device_flags sta))
  else [sta]

/-- expand_hybrid_stations from tdvms/tdvms.py. -/
def expand_hybrid_stations (stations : List Station) : List Station :=
  stations.flatMap expand_one

/-- The boundary `i * k + min(i, m)` of the slice expression inside
split_into_batches. -/
def batch_bound (k m i : Nat) : Nat := i * k + min i m

/-- split_into_batches from tdvms/tdvms.py: `n = len // batch_size + 1`
groups, `k, m = divmod(len, n)`, group `i` being the slice
`stations[i*k + min(i, m) : (i+1)*k + min(i+1, m)]`. -/
def split_into_batches {α : Type} (stations : List α) (batch_size : Nat) : List (List α) :=
  let total_length := stations.length
  let n := total_length / batch_size + 1
  let k := total_length / n
  let m := total_length % n
  (List.range n).map (fun i =>
    (stations.drop (batch_bound k m i)).take (batch_bound k m (i + 1) - batch_bound k m i))

/-- The tuple data_types = ("mseed", "fseed", "inventory"). -/
def data_types : List String := ["mseed", "fseed", "inventory"]

/-- The per-station device-code derivation in request_data, with the
precedence H, then L, then N; none models the raised exception when no
device flag is set. -/
def device_code (sta : Station) : Option String :=
  if sta.deviceH then some "H"
  else if sta.deviceL then some "L"
  else if sta.deviceN then some "N"
  else none

/-- The device_codes loop of request_data: the codes of all stations,
or the error raised at the first station with no resolvable device. -/
def device_codes : List Station → Except String (List String)
  | [] => Except.ok []
  | sta :: rest =>
    match device_code sta with
    | none => Except.error ("Device type could not be figured out for " ++ sta.code)
    | some c =>
      match device_codes rest with
      | Except.error e => Except.error e
      | Except.ok cs => Except.ok (c :: cs)

/-- What the HTTP POST in request_data can come back with. -/
inductive HttpResult
  | timeout
  | connectionFailure
  | response (status : Nat) (result : Int)
deriving DecidableEq

/-- The exceptions request_data can raise.  tdvms wraps TDVMSException
(the only kind the download loop catches); dataError and badDataType
model the plain Exceptions raised before the POST. -/
inductive ReqError
  | dataError (msg : String)
  | badDataType
  | tdvms (msg : String)
deriving DecidableEq

/-- request_data from tdvms/tdvms.py, as a function of the HTTP
response: device codes are derived first (raising on a station with no
device flag), the data type is checked against data_types, then the
response is dispatched.  A timeout is caught, logged and swallowed:
the function returns normally. -/
def request_data (stations : List Station) (data_type : String) (resp : HttpResult) :
    Except ReqError Unit :=
  match device_codes stations with
  | Except.error msg => Except.error (ReqError.dataError msg)
  | Except.ok _ =>
    if data_type ∈ data_types then
      match resp with
      | HttpResult.timeout => Except.ok ()
      | HttpResult.connectionFailure => Except.error (ReqError.tdvms "Connection Aborted!")
      | HttpResult.response status result =>
        if status = 200 then
          if result = 111 then
            Except.error (ReqError.tdvms "You might need to wait for your previous request!")
          else if result = 110 then
            Except.error (ReqError.tdvms "General Error")
          else Except.ok ()
        else Except.error (ReqError.tdvms "Data request failed")
    else Except.error ReqError.badDataType

/-- Outcome of one iteration of the download loop in download.py. -/
inductive LoopResult
  | advanced (requested : Nat)
  | retrySame (requested : Nat)
  | crashed (requested : Nat) (e : ReqError)
deriving DecidableEq

/-- One iteration of the `while requested < n_batches` loop of
download.py: a normal return advances requested and persists it; a
TDVMSException is caught, waits a minute and leaves requested alone (the
same batch is retried); any other exception propagates. -/
def loop_step (requested : Nat) (outcome : Except ReqError Unit) : LoopResult :=
  match outcome with
  | Except.ok _ => LoopResult.advanced (requested + 1)
  | Except.error (ReqError.tdvms _) => LoopResult.retrySame requested
  | Except.error e => LoopResult.crashed requested e

/-- The checkpoint value persisted after a loop iteration. -/
def checkpoint_after : LoopResult → Nat
  | LoopResult.advanced r => r
  | LoopResult.retrySame r => r
  | LoopResult.crashed r _ => r

/-- The persisted state file: config hash and requested count. -/
structure SavedState where
  hash : String
  requested : Nat
deriving DecidableEq

/-- Outcome of check_cur_state: proceed with a requested count (and
whether the reset prompt was shown), or exit(0). -/
inductive CheckOutcome
  | proceed (prompted : Bool) (requested : Nat)
  | exited
deriving DecidableEq

/-- check_cur_state from download.py, as a function of the prior state
file contents (none when the file is absent), the sha256 hash of the
current config file and the answer the user would give to the reset
prompt. -/
def check_cur_state (prior : Option SavedState) (filehash : String) (answer : String) :
    CheckOutcome :=
  match prior with
  | some state =>
    if state.hash ≠ filehash then
      if answer = "y" then CheckOutcome.proceed true 0
      else CheckOutcome.exited
    else CheckOutcome.proceed false state.requested
  | none => CheckOutcome.proceed false 0

/-- Number of batch submissions the main loop of download.py would
attempt after the checkpoint check (zero when check_cur_state exited). -/
def submissions_attempted (check : CheckOutcome) (n_batches : Nat) : Nat :=
  match check with
  | CheckOutcome.exited => 0
  | CheckOutcome.proceed _ r => n_batches - r

/-- The batch_data_formats list built by select_stations:
`for f in data_format: batch_data_formats.extend([f] * n_batches)`. -/
def batch_data_formats (formats : List String) (n_batches : Nat) : List String :=
  formats.flatMap (fun f => List.replicate n_batches f)

/-- The batches list built by select_stations:
`for f in data_format: batches.extend(batches_of_the_partition)`. -/
def plan_batches (formats : List String) (batches : List (List Station)) :
    List (List Station) :=
  formats.flatMap (fun _ => batches)

/-- The batch_size argument of DownloadConfig, which Python only probes
with isinstance(batch_size, int). -/
inductive BatchSizeArg
  | intArg (n : Int)
  | otherArg
deriving DecidableEq

/-- The batch-size validation at the end of DownloadConfig constructor:
accept any int, reject anything else. -/
def validate_batch_size : BatchSizeArg → Except String Int
  | BatchSizeArg.intArg n => Except.ok n
  | BatchSizeArg.otherArg => Except.error "Batch size should be an integer"

/-- Python substring membership `d in s` over character lists: some
contiguous slice of s equals d. -/
def py_in_string (d s : List Char) : Bool :=
  (List.range (s.length + 1)).any (fun i => ((s.drop i).take d.length) == d)

/-- The characters of the string "HLN" the validation tests against. -/
def hln : List Char := ['H', 'L', 'N']

/-- The per-entry device-type validation of DownloadConfig:
`d not in "HLN"` raises, so an entry is accepted exactly when it is a
contiguous substring of "HLN". -/
def device_type_entry_ok (d : String) : Bool := py_in_string d.toList hln

/-- Dictionary access `sta[key]` for the boolean device keys of a
station record; none models a KeyError. -/
def station_bool_key (sta : Station) (key : String) : Option Bool :=
  if key = "deviceH" then some sta.deviceH
  else if key = "deviceL" then some sta.deviceL
  else if key = "deviceN" then some sta.deviceN
  else if key = "deviceHZ" then some sta.deviceHZ
  else if key = "deviceHE" then some sta.deviceHE
  else if key = "deviceHN" then some sta.deviceHN
  else if key = "deviceLZ" then some sta.deviceLZ
  else if key = "deviceLE" then some sta.deviceLE
  else if key = "deviceLN" then some sta.deviceLN
  else if key = "deviceNZ" then some sta.deviceNZ
  else if key = "deviceNE" then some sta.deviceNE
  else if key = "deviceNN" then some sta.deviceNN
  else none

/-- The inner loop of filter_stations_by_device_type for one station:
the station is appended once per code whose key `"device" + code` is
truthy; a missing key (KeyError) aborts the whole filter. -/
def device_matches (sta : Station) : List String → Option (List Station)
  | [] => some []
  | c :: rest =>
    match station_bool_key sta ("device" ++ c) with
    | none => none
    | some b =>
      match device_matches sta rest with
      | none => none
      | some l => some (if b then sta :: l else l)

/-- filter_stations_by_device_type from tdvms/tdvms.py, with none
modelling the KeyError raised on a key that is not in the record. -/
def filter_stations_by_device_type : List Station → List String → Option (List Station)
  | [], _ => some []
  | sta :: rest, device_codes_arg =>
    match device_matches sta device_codes_arg with
    | none => none
    | some a =>
      match filter_stations_by_device_type rest device_codes_arg with
      | none => none
      | some b => some (a ++ b)

/-- A concrete high-gain-only station, for witnesses. -/
def staH : Station :=
  ⟨"TK", "3126", 39, 32, true, false, false,
   true, true, true, false, false, false, false, false, false⟩

/-- A concrete hybrid station with all three device flags set and mixed
component flags, for witnesses. -/
def staAll : Station :=
  ⟨"KO", "DKL", 40, 29, true, true, true,
   true, false, true, false, true, false, true, true, false⟩

/-- A concrete station with no device flag set, for counterexamples. -/
def staNone : Station :=
  ⟨"TK", "0000", 38, 30, false, false, false,
   false, false, false, false, false, false, false, false, false⟩

/-! ## Helper lemmas -/

/-- device_codes succeeds on a list in which every station resolves a
device code. -/
theorem device_codes_ok_of_all (stations : List Station)
    (h : ∀ sta ∈ stations, sta.deviceH = true ∨ sta.deviceL = true ∨ sta.deviceN = true) :
    ∃ cs, device_codes stations = Except.ok cs := by
  induction stations with
  | nil => exact ⟨[], rfl⟩
  | cons sta rest ih =>
    have hsta := h sta (by simp)
    have hcode : ∃ c, device_code sta = some c := by
      by_cases hH : sta.deviceH = true
      · exact ⟨"H", by simp [device_code, hH]⟩
      · by_cases hL : sta.deviceL = true
        · exact ⟨"L", by simp [device_code, hH, hL]⟩
        · have hN : sta.deviceN = true := by
            rcases hsta with h1 | h1 | h1
            · exact absurd h1 hH
            · exact absurd h1 hL
            · exact h1
          exact ⟨"N", by simp [device_code, hH, hL, hN]⟩
    obtain ⟨c, hc⟩ := hcode
    obtain ⟨cs, hcs⟩ := ih (fun s hs => h s (by simp [hs]))
    exact ⟨c :: cs, by simp [device_codes, hc, hcs]⟩

/-- request_data reaches the response dispatch when every station has a
device flag and the data type is recognized. -/
theorem request_data_dispatch (stations : List Station) (data_type : String)
    (resp : HttpResult)
    (hdev : ∀ sta ∈ stations, sta.deviceH = true ∨ sta.deviceL = true ∨ sta.deviceN = true)
    (hdt : data_type ∈ data_types) :
    request_data stations data_type resp =
      match resp with
      | HttpResult.timeout => Except.ok ()
      | HttpResult.connectionFailure => Except.error (ReqError.tdvms "Connection Aborted!")
      | HttpResult.response status result =>
        if status = 200 then
          if result = 111 then
            Except.error (ReqError.tdvms "You might need to wait for your previous request!")
          else if result = 110 then
            Except.error (ReqError.tdvms "General Error")
          else Except.ok ()
        else Except.error (ReqError.tdvms "Data request failed") := by
  obtain ⟨cs, hcs⟩ := device_codes_ok_of_all stations hdev
  unfold request_data
  rw [hcs]
  simp [hdt]

/-! ## Claim theorems -/

/-- Claim C1, counterexample: with one well-formed station and a valid
data type, a timed-out submission makes the download loop advance the
persisted checkpoint from 0 to 1, so the claim that the checkpoint does
not advance is false on the code. -/
theorem c1_timeout_advances_counterexample :
    loop_step 0 (request_data [staH] "mseed" HttpResult.timeout) = LoopResult.advanced 1 ∧
      checkpoint_after (loop_step 0 (request_data [staH] "mseed" HttpResult.timeout)) ≠ 0 := by
  constructor
  · rfl
  · decide

/-- Claim C1 (amended): a timed-out submission raises no error and
schedules no retry, but the loop in download.py cannot distinguish the
swallowed timeout from success: it advances the checkpoint by one, and
the batch is never re-invoked. -/
theorem c1_timeout_soft_advance (requested : Nat) (stations : List Station)
    (data_type : String)
    (hdev : ∀ sta ∈ stations, sta.deviceH = true ∨ sta.deviceL = true ∨ sta.deviceN = true)
    (hdt : data_type ∈ data_types) :
    request_data stations data_type HttpResult.timeout = Except.ok () ∧
      loop_step requested (request_data stations data_type HttpResult.timeout) =
        LoopResult.advanced (requested + 1) ∧
      checkpoint_after (loop_step requested (request_data stations data_type HttpResult.timeout)) =
        requested + 1 := by
  have h := request_data_dispatch stations data_type HttpResult.timeout hdev hdt
  refine ⟨h, ?_, ?_⟩ <;> rw [h] <;> rfl

/-- Claim C1, witness for the amended theorem at a concrete input. -/
theorem c1_timeout_soft_advance_witness :
    request_data [staH] "mseed" HttpResult.timeout = Except.ok () ∧
      loop_step 5 (request_data [staH] "mseed" HttpResult.timeout) = LoopResult.advanced 6 ∧
      checkpoint_after (loop_step 5 (request_data [staH] "mseed" HttpResult.timeout)) = 6 :=
  c1_timeout_soft_advance 5 [staH] "mseed" (by decide) (by decide)

/-- Claim C3, counterexample: two distinct non-success result codes (42
and 43) both make request_data return normally under HTTP 200, so it is
false that every Result code other than the single success code raises
a RetryableError. -/
theorem c3_result_code_counterexample :
    request_data [staH] "mseed" (HttpResult.response 200 42) = Except.ok () ∧
      request_data [staH] "mseed" (HttpResult.response 200 43) = Except.ok () ∧
      (42 : Int) ≠ 43 := by
  refine ⟨rfl, rfl, by decide⟩

/-- Claim C3 (amended): under HTTP 200, request_data raises exactly when
the Result code is 111 or 110: 111 raises the busy error, 110 raises the
general server error, and every other Result code (recognized success or
not) returns normally. -/
theorem c3_result_code_spec (stations : List Station) (data_type : String) (result : Int)
    (hdev : ∀ sta ∈ stations, sta.deviceH = true ∨ sta.deviceL = true ∨ sta.deviceN = true)
    (hdt : data_type ∈ data_types) :
    (request_data stations data_type (HttpResult.response 200 result) ≠ Except.ok () ↔
        result = 111 ∨ result = 110) ∧
      (result = 111 →
        request_data stations data_type (HttpResult.response 200 result) =
          Except.error (ReqError.tdvms "You might need to wait for your previous request!")) ∧
      (result = 110 →
        request_data stations data_type (HttpResult.response 200 result) =
          Except.error (ReqError.tdvms "General Error")) := by
  have h := request_data_dispatch stations data_type (HttpResult.response 200 result) hdev hdt
  rw [h]
  by_cases h111 : result = 111
  · simp [h111]
  · by_cases h110 : result = 110 <;> simp [h111, h110]

/-- Claim C3, witness for the amended theorem at a concrete input. -/
theorem c3_result_code_spec_witness :
    request_data [staH] "mseed" (HttpResult.response 200 111) =
      Except.error (ReqError.tdvms "You might need to wait for your previous request!") :=
  (c3_result_code_spec [staH] "mseed" 111 (by decide) (by decide)).2.1 rfl

/-- Claim C4: loading the checkpoint: no prior state file gives
requested = 0 with no prompt; an unchanged hash returns the stored
requested verbatim with no prompt; a prompt happens only when the hashes
differ; declining the reset exits, after which the main loop attempts
zero submissions. -/
theorem c4_check_cur_state_spec (prior : Option SavedState) (filehash answer : String) :
    (prior = none → check_cur_state prior filehash answer = CheckOutcome.proceed false 0) ∧
      (∀ st, prior = some st → st.hash = filehash →
        check_cur_state prior filehash answer = CheckOutcome.proceed false st.requested) ∧
      (∀ st, prior = some st → st.hash ≠ filehash → answer ≠ "y" →
        check_cur_state prior filehash answer = CheckOutcome.exited) ∧
      (∀ b n, check_cur_state prior filehash answer = CheckOutcome.proceed b n → b = true →
        ∃ st, prior = some st ∧ st.hash ≠ filehash) ∧
      (∀ n_batches, check_cur_state prior filehash answer = CheckOutcome.exited →
        submissions_attempted (check_cur_state prior filehash answer) n_batches = 0) := by
  refine ⟨?_, ?_, ?_, ?_, ?_⟩
  · intro h
    subst h
    rfl
  · intro st h heq
    subst h
    simp [check_cur_state, heq]
  · intro st h hne hans
    subst h
    simp [check_cur_state, hne, hans]
  · intro b n h hb
    subst hb
    match prior with
    | none => simp [check_cur_state] at h
    | some st =>
      refine ⟨st, rfl, ?_⟩
      intro heq
      simp [check_cur_state, heq] at h
  · intro n_batches h
    rw [h]
    rfl

/-- Claim C4, witness: a prior state with matching hash is returned
verbatim with no prompt, at a concrete input. -/
theorem c4_check_cur_state_spec_witness :
    check_cur_state (some ⟨"h1", 7⟩) "h1" "n" = CheckOutcome.proceed false 7 :=
  (c4_check_cur_state_spec (some ⟨"h1", 7⟩) "h1" "n").2.1 ⟨"h1", 7⟩ rfl rfl

/-- Claim C7, counterexample: on the empty station list the partitioner
returns a one-element plan containing the empty group, not the empty
plan the claim asserts. -/
theorem c7_empty_counterexample :
    split_into_batches ([] : List Station) 50 ≠ [] := by
  decide

/-- Claim C7 (amended): for every batch size, the partitioner on the
empty station list returns exactly one empty group (n = 0 div b + 1 = 1
groups; no division by zero occurs). -/
theorem c7_split_empty (batch_size : Nat) :
    split_into_batches ([] : List Station) batch_size = [[]] := by
  simp [split_into_batches, batch_bound]

/-- Claim C8, counterexample: DownloadConfig batch-size validation
accepts the integer 0 and the integer -5, so the claim that construction
fails on non-positive integers is false. -/
theorem c8_batch_size_counterexample :
    validate_batch_size (BatchSizeArg.intArg 0) = Except.ok 0 ∧
      validate_batch_size (BatchSizeArg.intArg (-5)) = Except.ok (-5) ∧
      ¬ (0 : Int) > 0 := by
  refine ⟨rfl, rfl, by decide⟩

/-- Claim C8 (amended): DownloadConfig batch-size validation fails with
a ConfigError exactly when the argument is not an integer; every
integer, including zero and negative values, is accepted at
construction time. -/
theorem c8_batch_size_spec (arg : BatchSizeArg) :
    (∃ n, validate_batch_size arg = Except.ok n) ↔ ∃ n, arg = BatchSizeArg.intArg n := by
  cases arg with
  | intArg n => simp [validate_batch_size]
  | otherArg => simp [validate_batch_size]

/-- Claim C9, counterexample: a station with no device flag at all passes
through expand_hybrid_stations unchanged, and the device-code derivation
of request_data then takes its error branch, so the DataError branch is
reachable on an expanded list. -/
theorem c9_data_error_reachable_counterexample :
    expand_hybrid_stations [staNone] = [staNone] ∧
      staNone.deviceH = false ∧ staNone.deviceL = false ∧ staNone.deviceN = false ∧
      device_code staNone = none ∧
      device_codes [staNone] =
        Except.error ("Device type could not be figured out for " ++ staNone.code) ∧
      request_data [staNone] "mseed" HttpResult.timeout =
        Except.error (ReqError.dataError
          ("Device type could not be figured out for " ++ staNone.code)) := by
  refine ⟨rfl, rfl, rfl, rfl, rfl, rfl, rfl⟩

/-- Claim C9 (amended): on a station list in which every station has at
least one device flag set, every station in the output of
expand_hybrid_stations still has at least one device flag set, and the
device-code derivation of request_data succeeds on the whole expanded
list, so the DataError branch is not taken. -/
theorem c9_no_data_error_after_expansion (stations : List Station)
    (h : ∀ sta ∈ stations, sta.deviceH = true ∨ sta.deviceL = true ∨ sta.deviceN = true) :
    (∀ e ∈ expand_hybrid_stations stations,
        e.deviceH = true ∨ e.deviceL = true ∨ e.deviceN = true) ∧
      ∃ cs, device_codes (expand_hybrid_stations stations) = Except.ok cs := by
  have hall : ∀ e ∈ expand_hybrid_stations stations,
      e.deviceH = true ∨ e.deviceL = true ∨ e.deviceN = true := by
    intro e he
    rw [expand_hybrid_stations, List.mem_flatMap] at he
    obtain ⟨sta, hsta, he⟩ := he
    unfold expand_one at he
    by_cases hc : 1 < number_of_device_types sta
    · rw [if_pos hc, List.mem_map] at he
      obtain ⟨d, hd, rfl⟩ := he
      cases d with
      | H => left; rfl
      | L => right; left; rfl
      | N => right; right; rfl
    · rw [if_neg hc] at he
      simp at he
      subst he
      exact h _ hsta
  exact ⟨hall, device_codes_ok_of_all _ hall⟩

/-- Claim C9, witness for the amended theorem at a concrete list holding
a hybrid station and a single-device station. -/
theorem c9_no_data_error_after_expansion_witness :
    ∃ cs, device_codes (expand_hybrid_stations [staAll, staH]) = Except.ok cs :=
  (c9_no_data_error_after_expansion [staAll, staH] (by decide)).2

/-- Claim C10, counterexample: the entry "LN" is accepted by the
substring validation and is not one of the codes H, L, N, yet the filter
key it produces, deviceLN, is an existing station key (the N-component
flag of the L device), so it is false that every such accepted entry
leads to a nonexistent-key lookup. -/
theorem c10_substring_counterexample :
    device_type_entry_ok "LN" = true ∧
      ("LN" : String) ∉ (["H", "L", "N"] : List String) ∧
      station_bool_key staAll ("device" ++ "LN") = some staAll.deviceLN := by
  refine ⟨by decide, by decide, rfl⟩

/-- Claim C10 (amended): the validation accepts exactly the contiguous
substrings of "HLN", hence the empty string and the multi-character
entries "HL", "LN", "HLN" besides H, L, N (rejecting, e.g., "HN"); the
accepted entries "", "HL" and "HLN" make the device-type filter look up
a nonexistent station key, failing on any nonempty station list, while
the accepted entry "LN" looks up the existing component key deviceLN and
filters by that wrong flag instead. -/
theorem c10_device_type_validation_spec :
    device_type_entry_ok "" = true ∧
      device_type_entry_ok "HL" = true ∧
      device_type_entry_ok "LN" = true ∧
      device_type_entry_ok "HLN" = true ∧
      device_type_entry_ok "HN" = false ∧
      (["H", "L", "N"] : List String).contains "" = false ∧
      (["H", "L", "N"] : List String).contains "HL" = false ∧
      (["H", "L", "N"] : List String).contains "LN" = false ∧
      (["H", "L", "N"] : List String).contains "HLN" = false ∧
      (∀ sta : Station,
        station_bool_key sta ("device" ++ "") = none ∧
          station_bool_key sta ("device" ++ "HL") = none ∧
          station_bool_key sta ("device" ++ "HLN") = none ∧
          station_bool_key sta ("device" ++ "LN") = some sta.deviceLN) ∧
      (∀ sta : Station, ∀ rest : List Station,
        filter_stations_by_device_type (sta :: rest) ["HL"] = none) ∧
      (∀ sta : Station, ∀ rest : List Station,
        filter_stations_by_device_type (sta :: rest) [""] = none) ∧
      (∀ sta : Station, ∀ rest : List Station,
        filter_stations_by_device_type (sta :: rest) ["HLN"] = none) := by
  refine ⟨by decide, by decide, by decide, by decide, by decide,
    by decide, by decide, by decide, by decide,
    fun sta => ⟨rfl, rfl, rfl, rfl⟩,
    fun sta rest => rfl, fun sta rest => rfl, fun sta rest => rfl⟩

/-- Length of a flatMap whose body ignores the element. -/
theorem flatMap_const_length {β γ : Type} (groups : List β) (fs : List γ) :
    (fs.flatMap (fun _ => groups)).length = groups.length * fs.length := by
  induction fs with
  | nil => simp
  | cons f fs ih =>
    rw [List.flatMap_cons, List.length_append, ih, List.length_cons]
    ring

/-- Length of a flatMap of constant-length replicates. -/
theorem flatMap_replicate_length {γ : Type} (fs : List γ) (n : Nat) :
    (fs.flatMap (fun f => List.replicate n f)).length = n * fs.length := by
  induction fs with
  | nil => simp
  | cons f fs ih =>
    rw [List.flatMap_cons, List.length_append, ih, List.length_cons, List.length_replicate]
    ring

/-- Indexing a flatMap whose body ignores the element: position i holds
the (i mod groups.length)-th element of groups. -/
theorem flatMap_const_getElem {β γ : Type} (groups : List β) (fs : List γ) (i : Nat)
    (h : i < groups.length * fs.length) :
    (fs.flatMap (fun _ => groups))[i]? = groups[i % groups.length]? := by
  induction fs generalizing i with
  | nil => simp at h
  | cons f fs ih =>
    rw [List.flatMap_cons, List.getElem?_append]
    by_cases hi : i < groups.length
    · rw [if_pos hi, Nat.mod_eq_of_lt hi]
    · rw [if_neg hi]
      have hge : groups.length ≤ i := Nat.le_of_not_lt hi
      have hexp : groups.length * (fs.length + 1) = groups.length * fs.length + groups.length := by
        ring
      rw [List.length_cons] at h
      have hlt : i - groups.length < groups.length * fs.length := by omega
      rw [ih (i - groups.length) hlt, Nat.mod_eq_sub_mod hge]

/-- Indexing a flatMap of constant-length replicates: position i holds
the (i div n)-th element of the outer list. -/
theorem flatMap_replicate_getElem {γ : Type} (fs : List γ) (n : Nat) (i : Nat)
    (h : i < n * fs.length) :
    (fs.flatMap (fun f => List.replicate n f))[i]? = fs[i / n]? := by
  induction fs generalizing i with
  | nil => simp at h
  | cons f fs ih =>
    rw [List.flatMap_cons, List.getElem?_append, List.length_replicate]
    by_cases hi : i < n
    · rw [if_pos hi, List.getElem?_replicate, if_pos hi, Nat.div_eq_of_lt hi]
      simp
    · rw [if_neg hi]
      have hge : n ≤ i := Nat.le_of_not_lt hi
      rw [List.length_cons] at h
      have hn : 0 < n := by
        rcases Nat.eq_zero_or_pos n with h0 | h0
        · subst h0
          simp at h
        · exact h0
      have hexp : n * (fs.length + 1) = n * fs.length + n := by ring
      have hlt : i - n < n * fs.length := by omega
      rw [ih (i - n) hlt, Nat.div_eq_sub_div hn hge, List.getElem?_cons_succ]

/-- Claim C5: the plan built by select_stations contains
n_partitions times the number of data formats many batches, and position
i of the plan pairs the (i mod n_partitions)-th station group with the
(i div n_partitions)-th data format, exactly as the two parallel extend
loops of download.py lay it out. -/
theorem c5_plan_layout_spec (groups : List (List Station)) (formats : List String) :
    (plan_batches formats groups).length = groups.length * formats.length ∧
      (batch_data_formats formats groups.length).length = groups.length * formats.length ∧
      ∀ i, i < groups.length * formats.length →
        (plan_batches formats groups)[i]? = groups[i % groups.length]? ∧
          (batch_data_formats formats groups.length)[i]? = formats[i / groups.length]? := by
  refine ⟨flatMap_const_length groups formats, ?_, ?_⟩
  · rw [batch_data_formats, flatMap_replicate_length]
  · intro i hi
    constructor
    · exact flatMap_const_getElem groups formats i hi
    · exact flatMap_replicate_getElem formats groups.length i (by omega)

/-- Claim C5, witness: the plan for two groups and two formats has four
batches laid out group-major, checked at position 3. -/
theorem c5_plan_layout_spec_witness :
    (plan_batches ["mseed", "fseed"] [[staH], [staAll]])[3]? = [[staH], [staAll]][3 % 2]? ∧
      (batch_data_formats ["mseed", "fseed"] 2)[3]? = ["mseed", "fseed"][3 / 2]? :=
  (c5_plan_layout_spec [[staH], [staAll]] ["mseed", "fseed"]).2.2 3 (by decide)

/-- Claim C6: a station with all three device flags set expands into
exactly 3 pairwise-distinct synthetic stations, each with exactly one
device flag set, that device's three component flags set, every other
device flag and component flag cleared, and all other attributes
(network, code, coordinates) retained; a station with exactly one device
type passes through expansion unchanged. -/
theorem c6_expand_hybrid_spec (sta : Station) :
    (sta.deviceH = true → sta.deviceL = true → sta.deviceN = true →
      (expand_hybrid_stations [sta]).length = 3 ∧
        (expand_hybrid_stations [sta]).Nodup ∧
        ∀ e ∈ expand_hybrid_stations [sta],
          number_of_device_types e = 1 ∧
            e.network = sta.network ∧ e.code = sta.code ∧
            e.latitude = sta.latitude ∧ e.longitude = sta.longitude ∧
            (e.deviceH = true →
              e.deviceHZ = true ∧ e.deviceHE = true ∧ e.deviceHN = true ∧
                e.deviceL = false ∧ e.deviceN = false ∧
                e.deviceLZ = false ∧ e.deviceLE = false ∧ e.deviceLN = false ∧
                e.deviceNZ = false ∧ e.deviceNE = false ∧ e.deviceNN = false) ∧
            (e.deviceL = true →
              e.deviceLZ = true ∧ e.deviceLE = true ∧ e.deviceLN = true ∧
                e.deviceH = false ∧ e.deviceN = false ∧
                e.deviceHZ = false ∧ e.deviceHE = false ∧ e.deviceHN = false ∧
                e.deviceNZ = false ∧ e.deviceNE = false ∧ e.deviceNN = false) ∧
            (e.deviceN = true →
              e.deviceNZ = true ∧ e.deviceNE = true ∧ e.deviceNN = true ∧
                e.deviceH = false ∧ e.deviceL = false ∧
                e.deviceHZ = false ∧ e.deviceHE = false ∧ e.deviceHN = false ∧
                e.deviceLZ = false ∧ e.deviceLE = false ∧ e.deviceLN = false)) ∧
      (number_of_device_types sta = 1 → expand_hybrid_stations [sta] = [sta]) := by
  constructor
  · intro hH hL hN
    have hexp : expand_hybrid_stations [sta] =
        [set_device (clear_device_flags sta) DeviceType.H,
         set_device (clear_device_flags sta) DeviceType.L,
         set_device (clear_device_flags sta) DeviceType.N] := by
      simp [expand_hybrid_stations, expand_one, number_of_device_types,
        hH, hL, hN, devices, Station.deviceFlag]
    refine ⟨by rw [hexp]; rfl, ?_, ?_⟩
    · rw [hexp]
      have hHL : set_device (clear_device_flags sta) DeviceType.H ≠
          set_device (clear_device_flags sta) DeviceType.L := by
        intro heq
        have hproj := congrArg Station.deviceH heq
        simp [set_device, clear_device_flags] at hproj
      have hHN : set_device (clear_device_flags sta) DeviceType.H ≠
          set_device (clear_device_flags sta) DeviceType.N := by
        intro heq
        have hproj := congrArg Station.deviceH heq
        simp [set_device, clear_device_flags] at hproj
      have hLN : set_device (clear_device_flags sta) DeviceType.L ≠
          set_device (clear_device_flags sta) DeviceType.N := by
        intro heq
        have hproj := congrArg Station.deviceL heq
        simp [set_device, clear_device_flags] at hproj
      simp [List.nodup_cons, hHL, hHN, hLN]
    · intro e he
      rw [hexp] at he
      simp only [List.mem_cons, List.not_mem_nil, or_false] at he
      rcases he with rfl | rfl | rfl <;>
        simp [set_device, clear_device_flags, number_of_device_types]
  · intro h1
    have hc : ¬ 1 < number_of_device_types sta := by omega
    simp [expand_hybrid_stations, expand_one, hc]

/-- The slice boundary starts at 0. -/
theorem batch_bound_zero (k m : Nat) : batch_bound k m 0 = 0 := by
  simp [batch_bound]

/-- Consecutive slice boundaries are nondecreasing. -/
theorem batch_bound_step (k m i : Nat) : batch_bound k m i ≤ batch_bound k m (i + 1) := by
  have h1 : (i + 1) * k = i * k + k := by ring
  simp only [batch_bound]
  omega

/-- Slice boundaries are monotone. -/
theorem batch_bound_mono (k m : Nat) {i j : Nat} (h : i ≤ j) :
    batch_bound k m i ≤ batch_bound k m j := by
  have h1 : i * k ≤ j * k := Nat.mul_le_mul_right k h
  have h2 : min i m ≤ min j m := by omega
  simp only [batch_bound]
  omega

/-- With k, m = divmod L n, the n-th slice boundary is exactly L. -/
theorem batch_bound_top (L n : Nat) (hn : 0 < n) :
    batch_bound (L / n) (L % n) n = L := by
  have hmn : L % n < n := Nat.mod_lt _ hn
  have hdm := Nat.div_add_mod L n
  have hmin : min n (L % n) = L % n := by omega
  simp only [batch_bound, hmin]
  omega

/-- Each slice spans at least k and at most k + 1 indices. -/
theorem batch_bound_diff (k m i : Nat) :
    k ≤ batch_bound k m (i + 1) - batch_bound k m i ∧
      batch_bound k m (i + 1) - batch_bound k m i ≤ k + 1 := by
  have hstep : (i + 1) * k = i * k + k := by ring
  simp only [batch_bound]
  omega

/-- Concatenating the slices of a list cut at the boundaries f 0 .. f n
gives back its prefix of length f n, for monotone boundaries starting
at 0. -/
theorem flatten_map_slices {α : Type} (l : List α) (f : Nat → Nat) (h0 : f 0 = 0)
    (hmono : ∀ i, f i ≤ f (i + 1)) (n : Nat) :
    ((List.range n).map (fun i => (l.drop (f i)).take (f (i + 1) - f i))).flatten
      = l.take (f n) := by
  induction n with
  | zero => simp [h0]
  | succ n ih =>
    rw [List.range_succ, List.map_append, List.flatten_append, ih]
    simp only [List.map_cons, List.map_nil, List.flatten_cons, List.flatten_nil,
      List.append_nil]
    rw [← List.take_add, Nat.add_sub_cancel' (hmono n)]

/-- The explicit slice form of split_into_batches. -/
theorem split_into_batches_eq {α : Type} (S : List α) (b : Nat) :
    split_into_batches S b =
      (List.range (S.length / b + 1)).map (fun i =>
        (S.drop (batch_bound (S.length / (S.length / b + 1))
            (S.length % (S.length / b + 1)) i)).take
          (batch_bound (S.length / (S.length / b + 1))
              (S.length % (S.length / b + 1)) (i + 1)
            - batch_bound (S.length / (S.length / b + 1))
                (S.length % (S.length / b + 1)) i)) := rfl

/-- Each group of split_into_batches has the exact length of its slice
interval. -/
theorem split_group_length {α : Type} (S : List α) (b : Nat) (g : List α)
    (hg : g ∈ split_into_batches S b) :
    S.length / (S.length / b + 1) ≤ g.length ∧
      g.length ≤ S.length / (S.length / b + 1) + 1 := by
  have hn : 0 < S.length / b + 1 := Nat.succ_pos _
  rw [split_into_batches_eq, List.mem_map] at hg
  obtain ⟨i, hi, rfl⟩ := hg
  rw [List.mem_range] at hi
  have hstep := batch_bound_step (S.length / (S.length / b + 1))
    (S.length % (S.length / b + 1)) i
  have htop : batch_bound (S.length / (S.length / b + 1))
      (S.length % (S.length / b + 1)) (i + 1) ≤ S.length := by
    calc batch_bound (S.length / (S.length / b + 1)) (S.length % (S.length / b + 1)) (i + 1)
        ≤ batch_bound (S.length / (S.length / b + 1)) (S.length % (S.length / b + 1))
            (S.length / b + 1) := batch_bound_mono _ _ (by omega)
      _ = S.length := batch_bound_top S.length (S.length / b + 1) hn
  have hdiff := batch_bound_diff (S.length / (S.length / b + 1))
    (S.length % (S.length / b + 1)) i
  rw [List.length_take, List.length_drop]
  omega

/-- Claim C2: for every list S and batch size b at least 1, the groups
of split_into_batches S b have lengths summing to exactly the length of
S, their in-order concatenation reproduces S, any two group lengths
differ by at most 1, and no group exceeds b by more than a slack of 1. -/
theorem c2_split_into_batches_spec {α : Type} (S : List α) (b : Nat) (hb : 1 ≤ b) :
    ((split_into_batches S b).map List.length).sum = S.length ∧
      (split_into_batches S b).flatten = S ∧
      (∀ g1 ∈ split_into_batches S b, ∀ g2 ∈ split_into_batches S b,
        g1.length ≤ g2.length + 1) ∧
      ∀ g ∈ split_into_batches S b, g.length ≤ b + 1 := by
  have hn : 0 < S.length / b + 1 := Nat.succ_pos _
  have hflat : (split_into_batches S b).flatten = S := by
    rw [split_into_batches_eq,
      flatten_map_slices S
        (batch_bound (S.length / (S.length / b + 1)) (S.length % (S.length / b + 1)))
        (batch_bound_zero _ _) (batch_bound_step _ _) (S.length / b + 1),
      batch_bound_top S.length (S.length / b + 1) hn, List.take_length]
  have hk_le_b : S.length / (S.length / b + 1) ≤ b := by
    have hmod := Nat.mod_lt S.length hb
    have hdm := Nat.div_add_mod S.length b
    have hexp : (b + 1) * (S.length / b + 1)
        = b * (S.length / b) + (S.length / b) + b + 1 := by ring
    have hlt : S.length < (b + 1) * (S.length / b + 1) := by omega
    have hdiv := (Nat.div_lt_iff_lt_mul hn).mpr hlt
    omega
  refine ⟨?_, hflat, ?_, ?_⟩
  · rw [← List.length_flatten, hflat]
  · intro g1 h1 g2 h2
    have b1 := split_group_length S b g1 h1
    have b2 := split_group_length S b g2 h2
    omega
  · intro g hg
    have b1 := split_group_length S b g hg
    omega

/-- Claim C2, witness: the properties checked on a five-element list
with batch size 2. -/
theorem c2_split_into_batches_spec_witness :
    (split_into_batches [1, 2, 3, 4, 5] 2).flatten = [1, 2, 3, 4, 5] :=
  (c2_split_into_batches_spec [1, 2, 3, 4, 5] 2 (by decide)).2.1
